import Mathlib

/-!
Shallow embedding of `tensorflow/lite/delegates/gpu/cl/kernels/elementwise.cc`.

The file under verification is a code generator: each elementwise operation
variant builds, at construction time, an OpenCL source fragment (a `String`)
and a list of declared argument bindings.  We embed the fragment builders and
the binding declarations directly.  `absl::Substitute` on the catalog
templates splices the operand-name arguments for the `$0` / `$1` placeholders
(none of the templates uses `$$` and arguments are inserted verbatim), so the
substitution is performed directly by string concatenation here, with the
template text kept character-for-character.

Device-side effects (tensor allocation, data upload, descriptor state) are
outside every claim's scope and are not modelled; the scalar value carried by
a binding is modelled as a rational, with the chosen storage representation
(full-precision float versus narrowed half) recorded as the binding's kind.
-/

/-- CalculationsPrecision from the precision header: full precision `F32`,
and the two reduced modes `F32_F16` and `F16`. -/
inductive CalculationsPrecision
  | F32
  | F32_F16
  | F16
  deriving DecidableEq, Repr

/-- OperationType members relevant to `elementwise.cc`: the eleven unary
operations and eight binary operations handled by the two switches, plus
representative members of the enumeration that fall to the `default:` branch
(`UNKNOWN`, `CONCAT`, `RELU` stand for every unhandled member). -/
inductive OperationType
  | ABS
  | COS
  | EXP
  | HARD_SWISH
  | LOG
  | RSQRT
  | SIGMOID
  | SIN
  | SQRT
  | SQUARE
  | TANH
  | ADD
  | DIV
  | MAXIMUM
  | MINIMUM
  | MUL
  | POW
  | SQUARED_DIFF
  | SUB
  | UNKNOWN
  | CONCAT
  | RELU
  deriving DecidableEq, Repr

/-- GetOneInputCode (elementwise.cc lines 29-88): the unary catalog.  Each
case is the source template with `$0` replaced by `input0`; the `default:`
branch returns the sentinel before any substitution. -/
def GetOneInputCode (op_type : OperationType) (precision : CalculationsPrecision)
    (input0 : String) : String :=
  match op_type with
  | .ABS => input0 ++ " = fabs(" ++ input0 ++ ");\n"
  | .COS => input0 ++ " = cos(" ++ input0 ++ ");\n"
  | .EXP => input0 ++ " = exp(" ++ input0 ++ ");\n"
  | .HARD_SWISH =>
      input0 ++ " *= clamp(" ++ input0 ++
        " * (FLT)(0.16666667f) + (FLT)(0.5f), (FLT4)(0.0f), (FLT4)(1.0f));\n"
  | .LOG => input0 ++ " = log(" ++ input0 ++ ");\n"
  | .RSQRT => input0 ++ " = (FLT4)(1.0f) / sqrt(" ++ input0 ++ ");\n"
  | .SIGMOID =>
      if precision ≠ CalculationsPrecision.F32 then
        input0 ++ ".x = convert_half(native_recip(1.0f + native_exp(convert_float(-" ++
          input0 ++ ".x))));\n" ++
        input0 ++ ".y = convert_half(native_recip(1.0f + native_exp(convert_float(-" ++
          input0 ++ ".y))));\n" ++
        input0 ++ ".z = convert_half(native_recip(1.0f + native_exp(convert_float(-" ++
          input0 ++ ".z))));\n" ++
        input0 ++ ".w = convert_half(native_recip(1.0f + native_exp(convert_float(-" ++
          input0 ++ ".w))));\n"
      else
        input0 ++ " = (FLT4)(1.0f) / ((FLT4)(1.0f) + exp(-(" ++ input0 ++ ")));\n"
  | .SIN => input0 ++ " = sin(" ++ input0 ++ ");\n"
  | .SQRT => input0 ++ " = sqrt(" ++ input0 ++ ");\n"
  | .SQUARE => input0 ++ " *= " ++ input0 ++ ";\n"
  | .TANH => input0 ++ " = tanh(" ++ input0 ++ ");\n"
  | _ => "Unknown operation type;\n"

/-- GetTwoInputCode (elementwise.cc lines 90-124): the binary catalog, with
`$0` replaced by `input0` and `$1` by `input1`; the `default:` branch returns
the sentinel before any substitution. -/
def GetTwoInputCode (op_type : OperationType) (input0 : String) (input1 : String) : String :=
  match op_type with
  | .ADD => input0 ++ " += " ++ input1 ++ ";\n"
  | .DIV => input0 ++ " /= " ++ input1 ++ ";\n"
  | .MAXIMUM => input0 ++ " = max(" ++ input0 ++ ", " ++ input1 ++ ");\n"
  | .MINIMUM => input0 ++ " = min(" ++ input0 ++ ", " ++ input1 ++ ");\n"
  | .MUL => input0 ++ " *= " ++ input1 ++ ";\n"
  | .POW => input0 ++ " = pow(" ++ input0 ++ ", " ++ input1 ++ ");\n"
  | .SQUARED_DIFF => input0 ++ " -= " ++ input1 ++ ";\n" ++ input0 ++ " *= " ++ input0 ++ ";\n"
  | .SUB => input0 ++ " -= " ++ input1 ++ ";\n"
  | _ => "Unknown operation type;\n"

/-- OperationDef, restricted to the field the embedded constructors consult. -/
structure OperationDef where
  precision : CalculationsPrecision
  deriving DecidableEq

/-- ArgumentBinding kinds declared by the constructors: a full-precision
scalar (`args_.AddFloat`), a narrowed half-precision scalar (`args_.AddHalf`),
a deferred tensor reference (`args_.AddObjectRef`) and an owned constant
tensor (`args_.AddObject`). -/
inductive ArgBinding
  | floatArg (name : String) (value : Rat)
  | halfArg (name : String) (value : Rat)
  | objectRef (name : String)
  | objectOwned (name : String)
  deriving DecidableEq, Repr

/-- ElementwiseOneRuntimeOneScalar constructor (elementwise.cc lines 152-162):
declares the scalar binding and renders the fragment.  Note that the branch
tests `definition.precision`; the `scalar_precision` parameter is accepted but
never read, exactly as in the source. -/
def elementwiseOneRuntimeOneScalar (definition : OperationDef) (op_type : OperationType)
    (scalar_parameter : Rat) (scalar_precision : CalculationsPrecision) :
    String × List ArgBinding :=
  let args :=
    if definition.precision = CalculationsPrecision.F32 then
      [ArgBinding.floatArg "scalar" scalar_parameter]
    else
      [ArgBinding.halfArg "scalar" scalar_parameter]
  (GetTwoInputCode op_type "in_out_value" "args.scalar", args)

/-- CreateElementwiseOneRuntimeOneScalar (elementwise.cc lines 180-189):
computes the device-dependent `scalar_precision` and forwards everything to
the constructor.  `isPowerVR` stands for `creation_context.device->IsPowerVR()`. -/
def CreateElementwiseOneRuntimeOneScalar (isPowerVR : Bool) (definition : OperationDef)
    (op_type : OperationType) (scalar_parameter : Rat) : String × List ArgBinding :=
  let scalar_precision :=
    if isPowerVR then CalculationsPrecision.F32 else definition.precision
  elementwiseOneRuntimeOneScalar definition op_type scalar_parameter scalar_precision

/-- BroadcastSettings: one boolean per axis of the secondary operand. -/
structure BroadcastSettings where
  width : Bool
  height : Bool
  channels : Bool
  deriving DecidableEq, Repr

/-- ElementwiseTwoInput reference constructor (elementwise.cc lines 191-214):
declares the deferred `second_tensor` reference and builds the fragment.
The descriptor passed to `AddObjectRef` (built from `definition.src_tensors[1]`
with the optional `BatchedWidth` state variable) shapes only the declared
binding, not the emitted code, and is abstracted into the binding kind. -/
def elementwiseTwoInputRef (op_type : OperationType) (broadcast : BroadcastSettings) :
    String × List ArgBinding :=
  let args := [ArgBinding.objectRef "second_tensor"]
  let x_coord := if broadcast.width then "0" else "X_COORD"
  let y_coord := if broadcast.height then "0" else "Y_COORD"
  let s_coord := if broadcast.channels then "0" else "S_COORD"
  let code := "FLT4 second_val = args.second_tensor.Read(" ++ x_coord ++ ", " ++
    y_coord ++ ", " ++ s_coord ++ ");\n"
  let code :=
    if broadcast.channels then
      code ++ "  second_val.y = second_val.x;\n" ++ "  second_val.z = second_val.x;\n" ++
        "  second_val.w = second_val.x;\n"
    else code
  (code ++ GetTwoInputCode op_type "in_out_value" "second_val", args)

/-- ElementwiseTwoInput constant-tensor constructor (elementwise.cc lines
216-238): identical fragment construction, but the secondary tensor is an
owned object (`AddObject` of the moved-in tensor) instead of a deferred
reference. -/
def elementwiseTwoInputConst (op_type : OperationType) (broadcast : BroadcastSettings) :
    String × List ArgBinding :=
  let args := [ArgBinding.objectOwned "second_tensor"]
  let x_coord := if broadcast.width then "0" else "X_COORD"
  let y_coord := if broadcast.height then "0" else "Y_COORD"
  let s_coord := if broadcast.channels then "0" else "S_COORD"
  let code := "FLT4 second_val = args.second_tensor.Read(" ++ x_coord ++ ", " ++
    y_coord ++ ", " ++ s_coord ++ ");\n"
  let code :=
    if broadcast.channels then
      code ++ "  second_val.y = second_val.x;\n" ++ "  second_val.z = second_val.x;\n" ++
        "  second_val.w = second_val.x;\n"
    else code
  (code ++ GetTwoInputCode op_type "in_out_value" "second_val", args)

/-- Modelled from the spec: `Arguments::SetObjectRef` is implemented in
`arguments.cc`, which is not among the sources; per the spec the resolution
step "binds the name to that operand's runtime handle", so it is modelled as
recording the (name, handle) pair in the argument state.  Operand handles are
modelled as naturals. -/
def setObjectRef (name : String) (handle : Nat) (args : List (String × Nat)) :
    Except String (List (String × Nat)) :=
  Except.ok ((name, handle) :: args)

/-- ElementwiseTwoInput::SetArgs (elementwise.cc lines 257-264): appends the
unique suffix to `second_tensor`, and only when the source-operand list has
size exactly 2 forwards `src_[1]` to `SetObjectRef`; otherwise it returns
`OkStatus` without touching the argument state. -/
def SetArgs (src : List Nat) (unique_suffix : String) (args : List (String × Nat)) :
    Except String (List (String × Nat)) :=
  let tensor_name := "second_tensor" ++ unique_suffix
  if h : src.length = 2 then
    setObjectRef tensor_name (src.get ⟨1, by omega⟩) args
  else
    Except.ok args

/-- BHWC logical shape. -/
structure BHWC where
  b : Nat
  h : Nat
  w : Nat
  c : Nat
  deriving DecidableEq, Repr

/-- Shape of a host-side linear constant tensor (`shape.v` elements). -/
structure LinearShape where
  v : Nat
  deriving DecidableEq, Repr

/-- Shape of a host-side planar HWC constant tensor. -/
structure HWCShape where
  h : Nat
  w : Nat
  c : Nat
  deriving DecidableEq, Repr

/-- Shape and BroadcastSettings derivation of the Linear overload of
CreateElementwiseTwoInput (elementwise.cc lines 266-290).  Storage-type
selection, device allocation and upload act on the device and do not feed
back into the derived shape or broadcast values. -/
def createTwoInputLinearDerive (constant_shape : LinearShape) : BHWC × BroadcastSettings :=
  let shape : BHWC := ⟨1, 1, 1, constant_shape.v⟩
  (shape, { width := true, height := true, channels := shape.c == 1 })

/-- Shape and BroadcastSettings derivation of the HWC overload of
CreateElementwiseTwoInput (elementwise.cc lines 292-317). -/
def createTwoInputHWCDerive (constant_shape : HWCShape) : BHWC × BroadcastSettings :=
  let shape : BHWC := ⟨1, constant_shape.h, constant_shape.w, constant_shape.c⟩
  (shape, { width := shape.w == 1, height := shape.h == 1, channels := shape.c == 1 })

/-- Claim-side coordinate selection: the fixed zero coordinate for a broadcast
axis, the per-element coordinate token otherwise. -/
def coordToken (broadcastFlag : Bool) (perElement : String) : String :=
  if broadcastFlag then "0" else perElement

/-- Claim-side reconstruction of the secondary-tensor read statement. -/
def readStatement (b : BroadcastSettings) : String :=
  "FLT4 second_val = args.second_tensor.Read(" ++ coordToken b.width "X_COORD" ++ ", " ++
    coordToken b.height "Y_COORD" ++ ", " ++ coordToken b.channels "S_COORD" ++ ");\n"

/-- Claim-side reconstruction of the channel replication block: three lane
copies in y, z, w order when the channel axis is broadcast, nothing otherwise. -/
def replicationBlock (b : BroadcastSettings) : String :=
  if b.channels then
    "  second_val.y = second_val.x;\n" ++ "  second_val.z = second_val.x;\n" ++
      "  second_val.w = second_val.x;\n"
  else ""

/-- Membership in the unary catalog: the eleven operations with an explicit
case in GetOneInputCode. -/
def isUnarySupported : OperationType → Bool
  | .ABS | .COS | .EXP | .HARD_SWISH | .LOG | .RSQRT
  | .SIGMOID | .SIN | .SQRT | .SQUARE | .TANH => true
  | _ => false

/-- Membership in the binary catalog: the eight operations with an explicit
case in GetTwoInputCode. -/
def isBinarySupported : OperationType → Bool
  | .ADD | .DIV | .MAXIMUM | .MINIMUM | .MUL | .POW | .SQUARED_DIFF | .SUB => true
  | _ => false

/-- Splits a fragment into its newline-terminated statements (structural
recursion so that concrete instances reduce in the kernel). -/
def linesAux : List Char → List Char → List String
  | [], acc => if acc.isEmpty then [] else [String.mk acc.reverse]
  | c :: rest, acc =>
      if c = '\n' then String.mk acc.reverse :: linesAux rest []
      else linesAux rest (c :: acc)

/-- Statement lines of a generated fragment. -/
def stmtLines (s : String) : List String := linesAux s.data []

/-- String concatenation is associative (helper for regrouping generated
fragments into statement blocks). -/
theorem strAppendAssoc (x y z : String) : (x ++ y) ++ z = x ++ (y ++ z) := by
  cases x with
  | mk dx =>
    cases y with
    | mk dy =>
      cases z with
      | mk dz =>
        show String.mk ((dx ++ dy) ++ dz) = String.mk (dx ++ (dy ++ dz))
        rw [List.append_assoc]

/-- C1: the spec says a PowerVR device forces the scalar binding to full
precision regardless of the operation's precision mode; the constructor
instead tests `definition.precision` and never reads the `scalar_precision`
computed from `IsPowerVR()`, so on a PowerVR device with a reduced-precision
operation definition the scalar is stored as a narrowed half value.  This
theorem evaluates the creation path at that failing input. -/
theorem powervr_scalar_stored_half_despite_override :
    (CreateElementwiseOneRuntimeOneScalar true { precision := CalculationsPrecision.F16 }
      OperationType.ADD (5 / 2)).2 = [ArgBinding.halfArg "scalar" (5 / 2)] := rfl

/-- C2 counterexample: resolving with a single source operand (no secondary
operand) returns `OkStatus`, not a resolution failure, refuting the claim
that a missing secondary operand is propagated as a failure. -/
theorem setargs_missing_operand_returns_ok :
    SetArgs [7] "_link0" [] = Except.ok ([] : List (String × Nat)) := rfl

/-- C2 amended: when the source-operand list does not have size exactly 2,
`SetArgs` returns success without binding anything (a no-op); a resolution
failure can only arise from the reference-setting step when a secondary
operand is present. -/
theorem setargs_non_two_operands_noop (src : List Nat) (unique_suffix : String)
    (args : List (String × Nat)) (h : src.length ≠ 2) :
    SetArgs src unique_suffix args = Except.ok args := by
  unfold SetArgs
  exact dif_neg h

theorem setargs_non_two_operands_noop_witness :
    SetArgs [7] "_link0" [("a", 5)] = Except.ok [("a", 5)] :=
  setargs_non_two_operands_noop [7] "_link0" [("a", 5)] (by decide)

/-- C3: resolving with no secondary source operand (source list empty or a
single primary operand) succeeds without binding anything; resolving with
exactly one secondary operand at position 1 succeeds and binds the name
"second_tensor" plus the caller-supplied suffix to that operand. -/
theorem setargs_noop_or_binds (unique_suffix : String) (args : List (String × Nat)) :
    SetArgs [] unique_suffix args = Except.ok args ∧
    (∀ t0 : Nat, SetArgs [t0] unique_suffix args = Except.ok args) ∧
    (∀ t0 t1 : Nat, SetArgs [t0, t1] unique_suffix args =
      Except.ok (("second_tensor" ++ unique_suffix, t1) :: args)) :=
  ⟨rfl, fun _ => rfl, fun _ _ => rfl⟩

/-- C4: under any reduced-precision mode, sigmoid renders exactly 4 per-lane
statements (lanes x, y, z, w in order), each promoting the lane to full
precision with `convert_float`, negating, applying `native_exp`, adding 1,
taking `native_recip` and converting back with `convert_half`; under full
precision it renders exactly the single vectorized statement of the form
`x = 1 / (1 + exp(-x))`. -/
theorem sigmoid_precision_rendering (precision : CalculationsPrecision) :
    (precision ≠ CalculationsPrecision.F32 →
      stmtLines (GetOneInputCode OperationType.SIGMOID precision "in_out_value") =
        ["x", "y", "z", "w"].map (fun lane =>
          "in_out_value." ++ lane ++
            " = convert_half(native_recip(1.0f + native_exp(convert_float(-in_out_value." ++
            lane ++ "))));")) ∧
    (precision = CalculationsPrecision.F32 →
      stmtLines (GetOneInputCode OperationType.SIGMOID precision "in_out_value") =
        ["in_out_value = (FLT4)(1.0f) / ((FLT4)(1.0f) + exp(-(in_out_value)));"]) := by
  cases precision with
  | F32 => exact ⟨fun h => absurd rfl h, fun _ => by decide⟩
  | F32_F16 => exact ⟨fun _ => by decide, fun h => nomatch h⟩
  | F16 => exact ⟨fun _ => by decide, fun h => nomatch h⟩

theorem sigmoid_precision_rendering_witness :
    stmtLines (GetOneInputCode OperationType.SIGMOID CalculationsPrecision.F16 "in_out_value") =
      ["x", "y", "z", "w"].map (fun lane =>
        "in_out_value." ++ lane ++
          " = convert_half(native_recip(1.0f + native_exp(convert_float(-in_out_value." ++
          lane ++ "))));") ∧
    stmtLines (GetOneInputCode OperationType.SIGMOID CalculationsPrecision.F32 "in_out_value") =
      ["in_out_value = (FLT4)(1.0f) / ((FLT4)(1.0f) + exp(-(in_out_value)));"] :=
  ⟨(sigmoid_precision_rendering CalculationsPrecision.F16).1 (by decide),
   (sigmoid_precision_rendering CalculationsPrecision.F32).2 rfl⟩

/-- C5: for every BroadcastSettings combination and every operation, the
generated fragment decomposes as the secondary read statement (zero
coordinate for each broadcast axis, the per-element token X_COORD / Y_COORD /
S_COORD otherwise), then the replication block, then the binary-operation
statements — so the replication precedes the statements that consume the
secondary value; when the channels flag is set the replication block is
exactly the 3 statements copying lane x into y, z, w in that order, and it is
empty otherwise. -/
theorem broadcast_coordinate_and_replication (op_type : OperationType)
    (b : BroadcastSettings) :
    (elementwiseTwoInputRef op_type b).1 =
      readStatement b ++ replicationBlock b ++
        GetTwoInputCode op_type "in_out_value" "second_val" ∧
    (b.channels = true →
      stmtLines (replicationBlock b) =
        ["  second_val.y = second_val.x;", "  second_val.z = second_val.x;",
          "  second_val.w = second_val.x;"]) ∧
    (b.channels = false → replicationBlock b = "") := by
  rcases b with ⟨w, h, c⟩
  refine ⟨?_, ?_, ?_⟩
  · cases w <;> cases h <;> cases c <;> rfl
  · intro hc
    cases c with
    | false => simp at hc
    | true => rfl
  · intro hc
    cases c with
    | false => rfl
    | true => simp at hc

theorem broadcast_coordinate_and_replication_witness :
    stmtLines (replicationBlock ⟨false, false, true⟩) =
      ["  second_val.y = second_val.x;", "  second_val.z = second_val.x;",
        "  second_val.w = second_val.x;"] ∧
    replicationBlock ⟨true, true, false⟩ = "" :=
  ⟨(broadcast_coordinate_and_replication OperationType.ADD ⟨false, false, true⟩).2.1 rfl,
   (broadcast_coordinate_and_replication OperationType.ADD ⟨true, true, false⟩).2.2 rfl⟩

/-- C6: squared-diff on operands (a, b) renders exactly the two statements
`a -= b;` then `a *= a;` in that order: the subtraction statement precedes
the self-multiplication. -/
theorem squared_diff_statement_order (a b : String) :
    GetTwoInputCode OperationType.SQUARED_DIFF a b =
      (a ++ " -= " ++ b ++ ";\n") ++ (a ++ " *= " ++ a ++ ";\n") ∧
    stmtLines (GetTwoInputCode OperationType.SQUARED_DIFF "in_out_value" "second_val") =
      ["in_out_value -= second_val;", "in_out_value *= in_out_value;"] := by
  refine ⟨?_, by decide⟩
  show ((((((a ++ " -= ") ++ b) ++ ";\n") ++ a) ++ " *= ") ++ a) ++ ";\n" = _
  simp only [strAppendAssoc]

/-- C7: the Linear overload derives shape (1,1,1,C) with BroadcastSettings
(width=true, height=true, channels=(C==1)); the HWC overload derives shape
(1,H,W,C) with BroadcastSettings (width=(W==1), height=(H==1),
channels=(C==1)). -/
theorem constant_tensor_shape_broadcast_derivation (cLin hH wW cC : Nat) :
    createTwoInputLinearDerive ⟨cLin⟩ =
      (⟨1, 1, 1, cLin⟩,
        { width := true, height := true, channels := cLin == 1 }) ∧
    createTwoInputHWCDerive ⟨hH, wW, cC⟩ =
      (⟨1, hH, wW, cC⟩,
        { width := wW == 1, height := hH == 1, channels := cC == 1 }) :=
  ⟨rfl, rfl⟩

/-- C8: constructing the operand+scalar variant for ADD with scalar 2.5 at
full precision yields the fragment `in_out_value += args.scalar;` (newline
terminated) and exactly one binding: a full-precision float named "scalar"
holding 2.5. -/
theorem add_scalar_full_precision_endtoend :
    CreateElementwiseOneRuntimeOneScalar false { precision := CalculationsPrecision.F32 }
      OperationType.ADD (5 / 2) =
      ("in_out_value += args.scalar;\n", [ArgBinding.floatArg "scalar" (5 / 2)]) := rfl

/-- C9: every operation identifier supported by neither the unary nor the
binary catalog renders the sentinel fragment "Unknown operation type;" in
both rendering paths, under every precision and operand naming; construction
is total, so no error is raised. -/
theorem unknown_operation_sentinel (op_type : OperationType)
    (h1 : isUnarySupported op_type = false) (h2 : isBinarySupported op_type = false)
    (precision : CalculationsPrecision) (input0 input1 : String) :
    GetOneInputCode op_type precision input0 = "Unknown operation type;\n" ∧
    GetTwoInputCode op_type input0 input1 = "Unknown operation type;\n" := by
  cases op_type <;>
    first
      | exact ⟨rfl, rfl⟩
      | exact absurd h1 (by decide)
      | exact absurd h2 (by decide)

theorem unknown_operation_sentinel_witness :
    GetOneInputCode OperationType.UNKNOWN CalculationsPrecision.F32 "a" =
      "Unknown operation type;\n" ∧
    GetTwoInputCode OperationType.UNKNOWN "a" "b" = "Unknown operation type;\n" :=
  unknown_operation_sentinel OperationType.UNKNOWN rfl rfl CalculationsPrecision.F32 "a" "b"

/-- C10: for every operation and BroadcastSettings, the reference constructor
and the constant-tensor constructor emit the identical source fragment; the
two paths differ only in the declared binding kind (deferred reference versus
owned object), both named "second_tensor". -/
theorem ref_const_same_code_different_binding (op_type : OperationType)
    (b : BroadcastSettings) :
    (elementwiseTwoInputRef op_type b).1 = (elementwiseTwoInputConst op_type b).1 ∧
    (elementwiseTwoInputRef op_type b).2 = [ArgBinding.objectRef "second_tensor"] ∧
    (elementwiseTwoInputConst op_type b).2 = [ArgBinding.objectOwned "second_tensor"] :=
  ⟨rfl, rfl, rfl⟩
